import Mathlib

/-!
Verification of the PlasmaControllerGUI HMI core: a shallow embedding of the
status-parsing and command-gating logic of `src/main.py`, together with the
Mode & Gating Engine variant described by the specification.
-/

/-! ## String model

Python strings are modelled as `String` (a list of characters); `str.upper`
and `str.strip` are modelled character-wise, and the Python substring test
`pat in s` is modelled by `hasSubStr`.
-/

/-- Model of Python `str.strip`: drop whitespace from both ends. -/
def pyStrip (l : List Char) : List Char :=
  ((l.dropWhile Char.isWhitespace).reverse.dropWhile Char.isWhitespace).reverse

/-- Model of `line.upper().strip()` as performed by `update_from_serial`. -/
def pyNormalize (line : String) : String :=
  String.mk (pyStrip (line.data.map Char.toUpper))

/-- Boolean test that the first list is an initial segment of the second. -/
def leadsWith : List Char → List Char → Bool
  | [], _ => true
  | _ :: _, [] => false
  | p :: ps, c :: cs => p == c && leadsWith ps cs

/-- Model of the Python substring test `pat in hay`. -/
def hasSub (pat : List Char) : List Char → Bool
  | [] => leadsWith pat []
  | c :: rest => leadsWith pat (c :: rest) || hasSub pat rest

/-- String-level wrapper of `hasSub`: Python `pat in s`. -/
def hasSubStr (s pat : String) : Bool :=
  hasSub pat.data s.data

/-! ## Status Model (`SystemStatus` in `src/main.py`) -/

/-- The seven `ProcessState` tokens recognized by `update_from_serial`. -/
def processTokens : List String :=
  ["OFF", "LOADING", "READY", "TREATING", "UNLOADING", "DROPPING", "RETURNING"]

/-- The `SystemStatus` record of `src/main.py`. -/
structure SystemStatus where
  process_state : String
  estop_active : Bool
  plasma_on : Bool
  dropout_states : List String
  arm_states : List String
  clamp_states : List String
deriving DecidableEq

/-- The field values set by `SystemStatus.__init__`. -/
def SystemStatus.init : SystemStatus where
  process_state := "OFF"
  estop_active := false
  plasma_on := false
  dropout_states := ["NONE", "NONE", "NONE", "NONE"]
  arm_states := ["UNKNOWN", "UNKNOWN", "UNKNOWN", "UNKNOWN"]
  clamp_states := ["UNKNOWN", "UNKNOWN", "UNKNOWN", "UNKNOWN"]

/-- Embedding of `SystemStatus.update_from_serial`: normalize the line with
`upper().strip()`, set `process_state` on an exact token match, otherwise
run the three `ESTOP` substring branches in source order. -/
def update_from_serial (s : SystemStatus) (line : String) : SystemStatus :=
  if pyNormalize line ∈ processTokens then
    { s with process_state := pyNormalize line }
  else if hasSubStr (pyNormalize line) "ESTOP ACTIVE" then
    { s with estop_active := true }
  else if hasSubStr (pyNormalize line) "ESTOP NOT ACTIVE" then
    { s with estop_active := false }
  else if hasSubStr (pyNormalize line) "ESTOP" then
    { s with estop_active := true }
  else
    s

/-- Fold a whole sequence of received lines through the Status Model. -/
def updates (s : SystemStatus) (lines : List String) : SystemStatus :=
  lines.foldl update_from_serial s

/-- The normalized forms of the lines of a sequence that are `ProcessState`
tokens, in order of arrival. -/
def recognizedOf (lines : List String) : List String :=
  (lines.map pyNormalize).filter (fun l => decide (l ∈ processTokens))

/-! ## Command paths of `HMIMainWindow` (`src/main.py`) -/

/-- Operator-selected mode (`self.current_mode`). -/
inductive OperatingMode where
  | AUTO
  | MANUAL
deriving DecidableEq, Fintype

/-- Dropout selection (`self.selected_dropout`): `ALL` or a station 1..4. -/
inductive DropoutSel where
  | ALL
  | D1
  | D2
  | D3
  | D4
deriving DecidableEq, Fintype

/-- Manual jog direction (the Up / Load / Down buttons). -/
inductive JogDir where
  | up
  | load
  | down
deriving DecidableEq, Fintype

/-- The string stored in `self.selected_dropout` for each selection. -/
def selString : DropoutSel → String
  | .ALL => "ALL"
  | .D1 => "1"
  | .D2 => "2"
  | .D3 => "3"
  | .D4 => "4"

/-- Outcome of one operator command path: the command handed to the
transport (if any) and whether a "Not Connected" dialog was raised. -/
structure PathResult where
  sent : Option String
  warned : Bool
deriving DecidableEq

/-- Embedding of `ArduinoInterface.send_command`: writes the command only
when connected, otherwise silently does nothing. -/
def send_command (connected : Bool) (cmd : String) : Option String :=
  if connected then some cmd else none

/-- `HMIMainWindow.trigger_estop`: sends `e_stop` unconditionally, with no
connection check and no dialog. -/
def trigger_estop (connected : Bool) : PathResult :=
  ⟨send_command connected "e_stop", false⟩

/-- `HMIMainWindow.begin_auto_treatment`: warns and aborts when not
connected, otherwise sends `start_process_sm`. -/
def begin_auto_treatment (connected : Bool) : PathResult :=
  if connected then ⟨send_command connected "start_process_sm", false⟩
  else ⟨none, true⟩

/-- `HMIMainWindow.exit_process`: sends `off` with no connection check. -/
def exit_process (connected : Bool) : PathResult :=
  ⟨send_command connected "off", false⟩

/-- `HMIMainWindow.reset_system`: sends `reset` with no connection check. -/
def reset_system (connected : Bool) : PathResult :=
  ⟨send_command connected "reset", false⟩

/-- The Part Loaded button handler: sends `part_loaded` directly. -/
def part_loaded_click (connected : Bool) : PathResult :=
  ⟨send_command connected "part_loaded", false⟩

/-- The Start Treatment button handler: sends `start_treatment`. -/
def start_treatment_click (connected : Bool) : PathResult :=
  ⟨send_command connected "start_treatment", false⟩

/-- The Part Unloaded button handler: sends `part_unloaded`. -/
def part_unloaded_click (connected : Bool) : PathResult :=
  ⟨send_command connected "part_unloaded", false⟩

/-- The Plasma ON button handler: sends `plasma_on`. -/
def plasma_on_click (connected : Bool) : PathResult :=
  ⟨send_command connected "plasma_on", false⟩

/-- The Plasma OFF button handler: sends `plasma_off`. -/
def plasma_off_click (connected : Bool) : PathResult :=
  ⟨send_command connected "plasma_off", false⟩

/-- `HMIMainWindow.command_up`: warns when not connected, otherwise sends
`all_up` or `{n}_up` according to the current dropout selection. -/
def command_up (connected : Bool) (sel : DropoutSel) : PathResult :=
  if connected then
    match sel with
    | .ALL => ⟨send_command connected "all_up", false⟩
    | s => ⟨send_command connected (selString s ++ "_up"), false⟩
  else ⟨none, true⟩

/-- `HMIMainWindow.command_load`: as `command_up`, with the `_load` suffix. -/
def command_load (connected : Bool) (sel : DropoutSel) : PathResult :=
  if connected then
    match sel with
    | .ALL => ⟨send_command connected "all_load", false⟩
    | s => ⟨send_command connected (selString s ++ "_load"), false⟩
  else ⟨none, true⟩

/-- `HMIMainWindow.command_down`: as `command_up`, with the `_down` suffix. -/
def command_down (connected : Bool) (sel : DropoutSel) : PathResult :=
  if connected then
    match sel with
    | .ALL => ⟨send_command connected "all_down", false⟩
    | s => ⟨send_command connected (selString s ++ "_down"), false⟩
  else ⟨none, true⟩

/-- `HMIMainWindow.request_status_update`: the polling driver sends
`status` then `get_states`, only when connected. -/
def request_status_update (connected : Bool) : List (Option String) :=
  [send_command connected "status", send_command connected "get_states"]

/-- Every command token the Engine of `src/main.py` can produce. -/
def commandTokens : List String :=
  ["e_stop", "reset", "start_process_sm", "part_loaded", "start_treatment",
   "part_unloaded", "off", "all_up", "all_load", "all_down",
   "1_up", "2_up", "3_up", "4_up",
   "1_load", "2_load", "3_load", "4_load",
   "1_down", "2_down", "3_down", "4_down",
   "plasma_on", "plasma_off", "status", "get_states"]

/-- The command token built for a manual jog, as assembled in
`command_up` / `command_load` / `command_down` of `src/main.py`. -/
def jogToken (sel : DropoutSel) (dir : JogDir) : String :=
  match dir, sel with
  | .up, .ALL => "all_up"
  | .up, s => selString s ++ "_up"
  | .load, .ALL => "all_load"
  | .load, s => selString s ++ "_load"
  | .down, .ALL => "all_down"
  | .down, s => selString s ++ "_down"

/-! ## Mode & Gating Engine (spec-modelled where `src/` lacks it)

The repository variant holding an explicit in-auto-process flag
(`TouchControlGUI`, imported by `src/run_full_screen.py`) is not under
`src/`; the flag behaviour below follows the specification, while the
status parsing and the command tokens reuse the definitions embedded from
`src/main.py` above.
-/

/-- Modelled from the spec: the manual-jog legality gate of the Gating
Engine — legal only when the mode is MANUAL and `AutoProcessFlag` is
false. In `src/main.py` the mode half is realized by only building the
jog buttons in the MANUAL control panel; the flag half is in the variant
missing from `src/`. The token sent is the one built by `command_up`,
`command_load` and `command_down`. -/
def manualJog (mode : OperatingMode) (autoFlag : Bool) (sel : DropoutSel)
    (dir : JogDir) : Option String :=
  if mode = OperatingMode.MANUAL ∧ autoFlag = false then
    some (jogToken sel dir)
  else none

/-- Modelled from the spec: the Gating Engine state — operator mode, the
`AutoProcessFlag`, and the latest Status Model snapshot. -/
structure EngineState where
  mode : OperatingMode
  autoFlag : Bool
  status : SystemStatus

/-- Modelled from the spec: the operator intents and external events the
Gating Engine reacts to. -/
inductive EngineEvent where
  | selectMode (m : OperatingMode)
  | beginAuto
  | partLoaded
  | startTreatment
  | partUnloaded
  | exitProcess
  | resetCmd
  | estopCmd
  | jog (sel : DropoutSel) (dir : JogDir)
  | plasmaOn
  | plasmaOff
  | statusLine (line : String)
deriving DecidableEq

/-- Modelled from the spec: the Gating Engine transition function. Status
lines go through `update_from_serial` embedded from `src/main.py`; the
`AutoProcessFlag` rules (set by begin-auto, cleared by exit/reset and by a
status report of OFF) follow the specification because the variant holding
the flag is not under `src/`. -/
def engineStep (s : EngineState) : EngineEvent → EngineState × Option String
  | .selectMode m => ({ s with mode := m }, none)
  | .beginAuto =>
      if s.status.process_state = "OFF" ∧ s.autoFlag = false then
        ({ s with autoFlag := true }, some "start_process_sm")
      else (s, none)
  | .partLoaded =>
      (s, if s.status.process_state = "LOADING" then some "part_loaded" else none)
  | .startTreatment =>
      (s, if s.status.process_state = "READY" then some "start_treatment" else none)
  | .partUnloaded =>
      (s, if s.status.process_state = "UNLOADING" then some "part_unloaded" else none)
  | .exitProcess =>
      if s.status.process_state = "LOADING" ∨ s.status.process_state = "READY" then
        ({ s with autoFlag := false }, some "off")
      else (s, none)
  | .resetCmd => ({ s with autoFlag := false }, some "reset")
  | .estopCmd => (s, some "e_stop")
  | .jog sel dir =>
      (s, manualJog s.mode s.autoFlag sel dir)
  | .plasmaOn =>
      (s, if s.mode = OperatingMode.MANUAL ∧ s.autoFlag = false then some "plasma_on" else none)
  | .plasmaOff =>
      (s, if s.mode = OperatingMode.MANUAL ∧ s.autoFlag = false then some "plasma_off" else none)
  | .statusLine line =>
      let st := update_from_serial s.status line
      ({ s with
          status := st,
          autoFlag := if st.process_state = "OFF" ∧ s.autoFlag = true then false else s.autoFlag },
        none)

/-! ## Structured status payload (spec-modelled) -/

/-- Modelled from the spec: one entry of the `dropouts` list of a
structured status payload, with optional `state` / `arm` / `clamp`
fields. The JSON-oriented (`getstatus`) variant of this repository is not
under `src/`. -/
structure DropoutPayload where
  state : Option String := none
  arm : Option String := none
  clamp : Option String := none

/-- Modelled from the spec: a structured status payload with optional
`estop`, `auto_mode` and `plasma_on` fields and an ordered `dropouts`
list. -/
structure StatusPayload where
  estop : Option Bool := none
  auto_mode : Option Bool := none
  plasma_on : Option Bool := none
  dropouts : List DropoutPayload := []

/-- Modelled from the spec: the model values a structured payload can
touch — the Status Model snapshot plus the auto-mode value. -/
structure StructuredModel where
  status : SystemStatus
  auto_mode : Bool

/-- Modelled from the spec: positional application of the per-dropout
field selected by `f`; a present field replaces the stored value, an
absent field keeps it, entries beyond the stored arrays are ignored. -/
def applyStates : List String → List DropoutPayload → (DropoutPayload → Option String) → List String
  | [], _, _ => []
  | cur, [], _ => cur
  | c :: cs, d :: ds, f => (f d).getD c :: applyStates cs ds f

/-- Modelled from the spec: field-by-field application of a structured
status payload; every absent field leaves the corresponding model value
unchanged. -/
def applyPayload (m : StructuredModel) (p : StatusPayload) : StructuredModel where
  status :=
    { m.status with
        estop_active := p.estop.getD m.status.estop_active,
        plasma_on := p.plasma_on.getD m.status.plasma_on,
        dropout_states := applyStates m.status.dropout_states p.dropouts (fun d => d.state),
        arm_states := applyStates m.status.arm_states p.dropouts (fun d => d.arm),
        clamp_states := applyStates m.status.clamp_states p.dropouts (fun d => d.clamp) }
  auto_mode := p.auto_mode.getD m.auto_mode

/-! ## Helper lemmas -/

theorem leadsWith_trans : ∀ (p q t : List Char),
    leadsWith p q = true → leadsWith q t = true → leadsWith p t = true
  | [], _, _, _, _ => rfl
  | _ :: _, [], _, h, _ => by simp [leadsWith] at h
  | _ :: _, _ :: _, [], _, h => by simp [leadsWith] at h
  | a :: as, b :: bs, c :: cs, h1, h2 => by
      simp only [leadsWith, Bool.and_eq_true, beq_iff_eq] at h1 h2 ⊢
      exact ⟨h1.1.trans h2.1, leadsWith_trans as bs cs h1.2 h2.2⟩

theorem hasSub_mono (p q : List Char) (hpq : leadsWith p q = true) :
    ∀ hay, hasSub q hay = true → hasSub p hay = true := by
  intro hay
  induction hay with
  | nil =>
      intro h
      exact leadsWith_trans p q [] hpq h
  | cons c rest ih =>
      intro h
      simp only [hasSub, Bool.or_eq_true] at h ⊢
      rcases h with h | h
      · exact Or.inl (leadsWith_trans p q (c :: rest) hpq h)
      · exact Or.inr (ih h)

theorem hasSubStr_mono (l p q : String) (hpq : leadsWith p.data q.data = true)
    (hq : hasSubStr l q = true) : hasSubStr l p = true :=
  hasSub_mono p.data q.data hpq l.data hq

theorem update_process_state_eq (s : SystemStatus) (line : String) :
    (update_from_serial s line).process_state =
      if pyNormalize line ∈ processTokens then pyNormalize line
      else s.process_state := by
  simp only [update_from_serial]
  split_ifs <;> rfl

theorem update_estop_eq (s : SystemStatus) (line : String) :
    (update_from_serial s line).estop_active =
      if pyNormalize line ∈ processTokens then s.estop_active
      else if hasSubStr (pyNormalize line) "ESTOP ACTIVE" then true
      else if hasSubStr (pyNormalize line) "ESTOP NOT ACTIVE" then false
      else if hasSubStr (pyNormalize line) "ESTOP" then true
      else s.estop_active := by
  simp only [update_from_serial]
  split_ifs <;> rfl

theorem update_frame_step (s : SystemStatus) (line : String) :
    (update_from_serial s line).plasma_on = s.plasma_on ∧
    (update_from_serial s line).dropout_states = s.dropout_states ∧
    (update_from_serial s line).arm_states = s.arm_states ∧
    (update_from_serial s line).clamp_states = s.clamp_states := by
  simp only [update_from_serial]
  split_ifs <;> exact ⟨rfl, rfl, rfl, rfl⟩

theorem update_noop_of_unrecognized (s : SystemStatus) (line : String)
    (h1 : pyNormalize line ∉ processTokens)
    (h2 : hasSubStr (pyNormalize line) "ESTOP" = false) :
    update_from_serial s line = s := by
  have hA : hasSubStr (pyNormalize line) "ESTOP ACTIVE" = false := by
    cases hx : hasSubStr (pyNormalize line) "ESTOP ACTIVE"
    · rfl
    · have := hasSubStr_mono (pyNormalize line) "ESTOP" "ESTOP ACTIVE" (by decide) hx
      rw [h2] at this
      exact absurd this (by simp)
  have hN : hasSubStr (pyNormalize line) "ESTOP NOT ACTIVE" = false := by
    cases hx : hasSubStr (pyNormalize line) "ESTOP NOT ACTIVE"
    · rfl
    · have := hasSubStr_mono (pyNormalize line) "ESTOP" "ESTOP NOT ACTIVE" (by decide) hx
      rw [h2] at this
      exact absurd this (by simp)
  simp [update_from_serial, h1, hA, hN, h2]

theorem updates_frame_all : ∀ (lines : List String) (s : SystemStatus),
    (updates s lines).plasma_on = s.plasma_on ∧
    (updates s lines).dropout_states = s.dropout_states ∧
    (updates s lines).arm_states = s.arm_states ∧
    (updates s lines).clamp_states = s.clamp_states
  | [], _ => ⟨rfl, rfl, rfl, rfl⟩
  | x :: xs, s => by
      have h1 := update_frame_step s x
      have h2 := updates_frame_all xs (update_from_serial s x)
      exact ⟨h2.1.trans h1.1, h2.2.1.trans h1.2.1,
             h2.2.2.1.trans h1.2.2.1, h2.2.2.2.trans h1.2.2.2⟩

/-! ## Claim theorems -/

/-- C1: for every input line, the Status Model's e-stop recognition applies
in priority order after normalization: a non-token line containing
"ESTOP ACTIVE" sets `estop_active` to true; else one containing
"ESTOP NOT ACTIVE" sets it to false; else one containing "ESTOP" sets it
to true (fail-safe); a line containing none of these leaves it unchanged. -/
theorem estop_recognition_priority (s : SystemStatus) (line : String) :
    (pyNormalize line ∉ processTokens →
      hasSubStr (pyNormalize line) "ESTOP ACTIVE" = true →
      (update_from_serial s line).estop_active = true)
  ∧ (pyNormalize line ∉ processTokens →
      hasSubStr (pyNormalize line) "ESTOP ACTIVE" = false →
      hasSubStr (pyNormalize line) "ESTOP NOT ACTIVE" = true →
      (update_from_serial s line).estop_active = false)
  ∧ (pyNormalize line ∉ processTokens →
      hasSubStr (pyNormalize line) "ESTOP ACTIVE" = false →
      hasSubStr (pyNormalize line) "ESTOP NOT ACTIVE" = false →
      hasSubStr (pyNormalize line) "ESTOP" = true →
      (update_from_serial s line).estop_active = true)
  ∧ (hasSubStr (pyNormalize line) "ESTOP" = false →
      (update_from_serial s line).estop_active = s.estop_active) := by
  have he := update_estop_eq s line
  refine ⟨?_, ?_, ?_, ?_⟩
  · intro h1 h2
    rw [he, if_neg h1, if_pos h2]
  · intro h1 h2 h3
    rw [he, if_neg h1]
    rw [h2]
    simp only [Bool.false_eq_true, if_false]
    rw [if_pos h3]
  · intro h1 h2 h3 h4
    rw [he, if_neg h1]
    rw [h2, h3]
    simp only [Bool.false_eq_true, if_false]
    rw [if_pos h4]
  · intro h4
    have hA : hasSubStr (pyNormalize line) "ESTOP ACTIVE" = false := by
      cases hx : hasSubStr (pyNormalize line) "ESTOP ACTIVE"
      · rfl
      · have := hasSubStr_mono (pyNormalize line) "ESTOP" "ESTOP ACTIVE" (by decide) hx
        rw [h4] at this
        exact absurd this (by simp)
    have hN : hasSubStr (pyNormalize line) "ESTOP NOT ACTIVE" = false := by
      cases hx : hasSubStr (pyNormalize line) "ESTOP NOT ACTIVE"
      · rfl
      · have := hasSubStr_mono (pyNormalize line) "ESTOP" "ESTOP NOT ACTIVE" (by decide) hx
        rw [h4] at this
        exact absurd this (by simp)
    rw [he]
    by_cases ht : pyNormalize line ∈ processTokens
    · rw [if_pos ht]
    · rw [if_neg ht, hA, hN, h4]
      simp only [Bool.false_eq_true, if_false]

/-- Witness for C1: the line `"estop not active"` hits the second branch
and clears `estop_active`. -/
theorem estop_recognition_priority_witness :
    (update_from_serial { SystemStatus.init with estop_active := true }
      "estop not active").estop_active = false :=
  (estop_recognition_priority { SystemStatus.init with estop_active := true }
    "estop not active").2.1 (by decide) (by decide) (by decide)

/-- C3: after any finite sequence of status lines, `process_state` equals
the normalized form of the last line that is exactly one of the seven
`ProcessState` tokens, and keeps its previous value when there is none;
unrecognized lines never change it. -/
theorem process_state_last_recognized (lines : List String) (s : SystemStatus) :
    (updates s lines).process_state =
      (recognizedOf lines).getLast?.getD s.process_state := by
  induction lines using List.reverseRecOn with
  | nil => rfl
  | append_singleton xs x ih =>
      by_cases ht : pyNormalize x ∈ processTokens
      · have h1 : recognizedOf (xs ++ [x]) = recognizedOf xs ++ [pyNormalize x] := by
          simp [recognizedOf, List.filter_append, ht]
        have h2 : updates s (xs ++ [x]) = update_from_serial (updates s xs) x := by
          simp only [updates, List.foldl_append, List.foldl_cons, List.foldl_nil]
        rw [h2, update_process_state_eq, if_pos ht, h1, List.getLast?_append_cons]
        rfl
      · have h1 : recognizedOf (xs ++ [x]) = recognizedOf xs := by
          simp [recognizedOf, List.filter_append, ht]
        have h2 : updates s (xs ++ [x]) = update_from_serial (updates s xs) x := by
          simp only [updates, List.foldl_append, List.foldl_cons, List.foldl_nil]
        rw [h2, update_process_state_eq, if_neg ht, h1]
        exact ih

/-- C5: the Status Model's update is a total function, and a line matching
none of the recognition rules (not a `ProcessState` token and without any
`ESTOP` mention, hence without either `ESTOP` phrase) is discarded whole:
the state is returned unchanged, field by field. -/
theorem update_total_unrecognized (s : SystemStatus) (line : String)
    (h1 : pyNormalize line ∉ processTokens)
    (h2 : hasSubStr (pyNormalize line) "ESTOP" = false) :
    update_from_serial s line = s ∧
    (update_from_serial s line).process_state = s.process_state ∧
    (update_from_serial s line).estop_active = s.estop_active ∧
    (update_from_serial s line).plasma_on = s.plasma_on ∧
    (update_from_serial s line).dropout_states = s.dropout_states ∧
    (update_from_serial s line).arm_states = s.arm_states ∧
    (update_from_serial s line).clamp_states = s.clamp_states := by
  have h := update_noop_of_unrecognized s line h1 h2
  rw [h]
  exact ⟨rfl, rfl, rfl, rfl, rfl, rfl, rfl⟩

/-- Witness for C5: an arbitrary diagnostic line is ignored entirely. -/
theorem update_total_unrecognized_witness :
    update_from_serial SystemStatus.init "sensor 3 temperature nominal" =
      SystemStatus.init :=
  (update_total_unrecognized SystemStatus.init "sensor 3 temperature nominal"
    (by decide) (by decide)).1

/-- C10: one update step mutates at most `process_state` and
`estop_active`, and over any whole sequence of lines from HMI start
`plasma_on` stays false and the dropout, arm and clamp arrays stay at
their initial sentinels. -/
theorem update_frame_condition (s : SystemStatus) (line : String) (lines : List String) :
    ((update_from_serial s line).plasma_on = s.plasma_on
      ∧ (update_from_serial s line).dropout_states = s.dropout_states
      ∧ (update_from_serial s line).arm_states = s.arm_states
      ∧ (update_from_serial s line).clamp_states = s.clamp_states)
  ∧ ((updates SystemStatus.init lines).plasma_on = false
      ∧ (updates SystemStatus.init lines).dropout_states = ["NONE", "NONE", "NONE", "NONE"]
      ∧ (updates SystemStatus.init lines).arm_states =
          ["UNKNOWN", "UNKNOWN", "UNKNOWN", "UNKNOWN"]
      ∧ (updates SystemStatus.init lines).clamp_states =
          ["UNKNOWN", "UNKNOWN", "UNKNOWN", "UNKNOWN"]) := by
  refine ⟨update_frame_step s line, ?_⟩
  have h := updates_frame_all lines SystemStatus.init
  exact ⟨h.1, h.2.1, h.2.2.1, h.2.2.2⟩

/-- C2 counterexample: with the transport not connected, `trigger_estop`
raises no dialog at all while `command_up` does — the opposite of the
claimed surfacing. -/
theorem notConnected_surfacing_counterexample :
    (trigger_estop false).warned = false
  ∧ (command_up false DropoutSel.ALL).warned = true := by decide

/-- C2 amended: when the transport is not connected, the "Not Connected"
condition is surfaced for `begin_auto_treatment` and for the manual jog
paths `command_up`, `command_load` and `command_down`, and for no other
path; `trigger_estop` and every other outbound send fail silently,
sending nothing. -/
theorem notConnected_surfacing :
    begin_auto_treatment false = ⟨none, true⟩
  ∧ (∀ sel : DropoutSel,
      command_up false sel = ⟨none, true⟩
      ∧ command_load false sel = ⟨none, true⟩
      ∧ command_down false sel = ⟨none, true⟩)
  ∧ trigger_estop false = ⟨none, false⟩
  ∧ exit_process false = ⟨none, false⟩
  ∧ reset_system false = ⟨none, false⟩
  ∧ part_loaded_click false = ⟨none, false⟩
  ∧ start_treatment_click false = ⟨none, false⟩
  ∧ part_unloaded_click false = ⟨none, false⟩
  ∧ plasma_on_click false = ⟨none, false⟩
  ∧ plasma_off_click false = ⟨none, false⟩
  ∧ request_status_update false = [none, none] := by decide

/-- C8 counterexample: at HMI start `process_state` is already one of the
seven firmware tokens (namely OFF) and the e-stop field is a two-valued
boolean holding false — neither field holds a distinct UNKNOWN value. -/
theorem initial_state_counterexample :
    SystemStatus.init.process_state ∈ processTokens
  ∧ SystemStatus.init.estop_active = false := by decide

/-- C8 amended: at HMI start the Status Model initializes `process_state`
to the token "OFF" (not an UNKNOWN sentinel) and `estop_active` to the
boolean false (rendered INACTIVE); no third UNKNOWN value exists. -/
theorem initial_state_defaults :
    SystemStatus.init.process_state = "OFF"
  ∧ "OFF" ∈ processTokens
  ∧ SystemStatus.init.estop_active = false
  ∧ SystemStatus.init.plasma_on = false := by decide

/-- C9 counterexample: echoing the Engine's own `off` command back into the
Status Model is not a no-op — its upper-cased form is the OFF token, so a
snapshot in state READY is moved to OFF. -/
theorem command_echo_counterexample :
    update_from_serial { SystemStatus.init with process_state := "READY" } "off"
      ≠ { SystemStatus.init with process_state := "READY" } := by decide

/-- C9 amended: feeding any Engine-producible command token back into the
Status Model never fails and leaves the state unchanged, except the token
`off`, whose upper-cased echo coincides with the OFF `ProcessState` token
and therefore sets `process_state` to "OFF" while leaving every other
field unchanged. -/
theorem command_echo_behavior (s : SystemStatus) (t : String)
    (ht : t ∈ commandTokens) :
    update_from_serial s t =
      if t = "off" then { s with process_state := "OFF" } else s := by
  have hoff : update_from_serial s "off" = { s with process_state := "OFF" } := by
    have h1 : pyNormalize "off" = "OFF" := by decide
    simp only [update_from_serial, h1]
    rw [if_pos (by decide)]
  fin_cases ht <;>
    first
      | (rw [if_pos rfl]; exact hoff)
      | (rw [if_neg (by decide)];
         exact update_noop_of_unrecognized _ _ (by decide) (by decide))

/-- Witness for C9: the echo of `reset` is a no-op on the initial state. -/
theorem command_echo_behavior_witness :
    update_from_serial SystemStatus.init "reset" = SystemStatus.init := by
  have h := command_echo_behavior SystemStatus.init "reset" (by decide)
  rw [if_neg (by decide)] at h
  exact h

/-- C4: a status line whose normalized form is OFF clears the
`AutoProcessFlag` with no operator action, and among every Engine event
only `beginAuto` can turn the flag from false to true. -/
theorem autoProcessFlag_clearing :
    (∀ (s : EngineState) (line : String), s.autoFlag = true →
      pyNormalize line = "OFF" →
      (engineStep s (EngineEvent.statusLine line)).1.autoFlag = false)
  ∧ (∀ (s : EngineState) (e : EngineEvent),
      (engineStep s e).1.autoFlag = true →
      s.autoFlag = true ∨ e = EngineEvent.beginAuto) := by
  constructor
  · intro s line hflag hline
    have hps : (update_from_serial s.status line).process_state = "OFF" := by
      rw [update_process_state_eq, hline]
      rw [if_pos (by decide)]
    show (if (update_from_serial s.status line).process_state = "OFF" ∧ s.autoFlag = true
        then false else s.autoFlag) = false
    rw [if_pos (And.intro hps hflag)]
  · intro s e h
    cases e with
    | selectMode m => exact Or.inl h
    | beginAuto => exact Or.inr rfl
    | partLoaded => exact Or.inl h
    | startTreatment => exact Or.inl h
    | partUnloaded => exact Or.inl h
    | exitProcess =>
        simp only [engineStep] at h
        split at h
        · exact Bool.noConfusion h
        · exact Or.inl h
    | resetCmd => exact Bool.noConfusion h
    | estopCmd => exact Or.inl h
    | jog sel dir => exact Or.inl h
    | plasmaOn => exact Or.inl h
    | plasmaOff => exact Or.inl h
    | statusLine line =>
        simp only [engineStep] at h
        split at h
        · exact Bool.noConfusion h
        · exact Or.inl h

/-- Witness for C4: with the flag set, the echo line `"off"` (normalized
to OFF) clears it. -/
theorem autoProcessFlag_clearing_witness :
    (engineStep ⟨OperatingMode.AUTO, true, SystemStatus.init⟩
      (EngineEvent.statusLine "off")).1.autoFlag = false :=
  autoProcessFlag_clearing.1 ⟨OperatingMode.AUTO, true, SystemStatus.init⟩
    "off" rfl (by decide)

/-- C6: a structured status payload is applied field by field — each
present `estop` / `auto_mode` / `plasma_on` / per-dropout field replaces
the corresponding model value, each absent field leaves it unchanged —
and the scenario holds: a payload with `estop: true` makes `estop_active`
true, after which the plain line "ESTOP NOT ACTIVE" makes it false. -/
theorem structured_payload_fields (m : StructuredModel) (p : StatusPayload) :
    (∀ b : Bool, p.estop = some b → (applyPayload m p).status.estop_active = b)
  ∧ (p.estop = none → (applyPayload m p).status.estop_active = m.status.estop_active)
  ∧ (∀ b : Bool, p.plasma_on = some b → (applyPayload m p).status.plasma_on = b)
  ∧ (p.plasma_on = none → (applyPayload m p).status.plasma_on = m.status.plasma_on)
  ∧ (∀ b : Bool, p.auto_mode = some b → (applyPayload m p).auto_mode = b)
  ∧ (p.auto_mode = none → (applyPayload m p).auto_mode = m.auto_mode)
  ∧ (∀ (c : String) (cs : List String) (d : DropoutPayload)
        (ds : List DropoutPayload) (f : DropoutPayload → Option String),
      applyStates (c :: cs) (d :: ds) f = (f d).getD c :: applyStates cs ds f)
  ∧ (∀ (cur : List String) (f : DropoutPayload → Option String),
      applyStates cur [] f = cur)
  ∧ ((applyPayload m { estop := some true }).status.estop_active = true)
  ∧ ((update_from_serial (applyPayload m { estop := some true }).status
      "ESTOP NOT ACTIVE").estop_active = false) := by
  refine ⟨?_, ?_, ?_, ?_, ?_, ?_, ?_, ?_, ?_, ?_⟩
  · intro b hb
    simp [applyPayload, hb]
  · intro hb
    simp [applyPayload, hb]
  · intro b hb
    simp [applyPayload, hb]
  · intro hb
    simp [applyPayload, hb]
  · intro b hb
    simp [applyPayload, hb]
  · intro hb
    simp [applyPayload, hb]
  · intro c cs d ds f
    rfl
  · intro cur f
    cases cur <;> rfl
  · simp [applyPayload]
  · rw [update_estop_eq]
    rw [if_neg (by decide), if_neg (by decide), if_pos (by decide)]

/-- Witness for C6: applying the `estop: true` payload to the initial
model sets `estop_active`. -/
theorem structured_payload_fields_witness :
    (applyPayload ⟨SystemStatus.init, false⟩
      { estop := some true }).status.estop_active = true :=
  (structured_payload_fields ⟨SystemStatus.init, false⟩
    { estop := some true }).1 true rfl

/-- C7: a manual jog is legal exactly when the mode is MANUAL and the
`AutoProcessFlag` is false, and then sends the single selection-scoped
token built by the command paths of `src/main.py` (selection 2 with jog
up gives `2_up`); the same intent in AUTO mode sends no command. -/
theorem manual_jog_gating :
    (∀ (sel : DropoutSel) (dir : JogDir),
      manualJog OperatingMode.MANUAL false sel dir = some (jogToken sel dir))
  ∧ (∀ (flag : Bool) (sel : DropoutSel) (dir : JogDir),
      manualJog OperatingMode.AUTO flag sel dir = none)
  ∧ (∀ (sel : DropoutSel) (dir : JogDir),
      manualJog OperatingMode.MANUAL true sel dir = none)
  ∧ jogToken DropoutSel.D2 JogDir.up = "2_up"
  ∧ (∀ sel : DropoutSel,
      (command_up true sel).sent = some (jogToken sel JogDir.up)
      ∧ (command_load true sel).sent = some (jogToken sel JogDir.load)
      ∧ (command_down true sel).sent = some (jogToken sel JogDir.down)) := by
  decide
